import Mathlib

/-!
# Label-filtered sweep of orphaned compute resources

A shallow embedding of `integration/provider/gcp.go` (package `provider`):
`DescribeInstancesWithTag`, `TerminateInstance`, `DescribeAvailableVolumes`
and `DeleteVolume`, together with the part of the compute client they drive.

The compute client is an external collaborator.  It is represented by the
answers it gives to executed calls (`Service`), and every call that is
executed (`Do`) is recorded in the `World`, next to the lines written to
standard output.  A call that is only built leaves no request behind.
-/

namespace provider

/-- Go `error` values are represented by their message; `nil` is `none`. -/
abbrev Error := String

/-- Go `map[string]string`, as an association list read with `mapIndex`. -/
abbrev Labels := List (String × String)

/-- Indexing a Go map, `m[k]`: the stored value, or the zero value `""`
when the key is absent. -/
def mapIndex (m : Labels) (k : String) : String :=
  (m.lookup k).getD ""

/-- Go `strings.Join(elems, sep)`. -/
def stringsJoin (elems : List String) (sep : String) : String :=
  sep.intercalate elems

/-- The fields of `compute.Zone` the code reads. -/
structure Zone where
  Name : String
deriving DecidableEq, Repr

/-- The fields of `compute.Instance` the code reads, and its status. -/
structure Instance where
  Name : String
  Labels : Labels
  Status : String
deriving DecidableEq, Repr

/-- The fields of `compute.Disk` the code reads, and its status. -/
structure Disk where
  Name : String
  Labels : Labels
  Status : String
deriving DecidableEq, Repr

/-- One page of a zone listing, `compute.ZoneList`. -/
structure ZoneList where
  Items : List Zone
  NextPageToken : String
deriving DecidableEq, Repr

/-- One page of an instance listing, `compute.InstanceList`. -/
structure InstanceList where
  Items : List Instance
  NextPageToken : String
deriving DecidableEq, Repr

/-- One page of a disk listing, `compute.DiskList`. -/
structure DiskList where
  Items : List Disk
  NextPageToken : String
deriving DecidableEq, Repr

/-- The call built by `Zones.List(project)`. -/
structure ZonesListCall where
  project : String
deriving DecidableEq, Repr

/-- The call built by `Instances.List(project, zone)`, with the URL
parameters `filter` and `pageToken` (unset: `none`). -/
structure InstancesListCall where
  project : String
  zone : String
  filter : Option String
  pageToken : Option String
deriving DecidableEq, Repr

/-- The call built by `Instances.Delete(project, zone, instance)`. -/
structure InstancesDeleteCall where
  project : String
  zone : String
  inst : String
deriving DecidableEq, Repr

/-- The call built by `Disks.List(project, zone)`. -/
structure DisksListCall where
  project : String
  zone : String
  filter : Option String
  pageToken : Option String
deriving DecidableEq, Repr

/-- The call built by `Disks.Delete(project, zone, disk)`. -/
structure DisksDeleteCall where
  project : String
  zone : String
  disk : String
deriving DecidableEq, Repr

/-- A request sent to the provider: a call on which `Do` was executed. -/
inductive Request where
  | zonesList (c : ZonesListCall)
  | instancesList (c : InstancesListCall)
  | instancesDelete (c : InstancesDeleteCall)
  | disksList (c : DisksListCall)
  | disksDelete (c : DisksDeleteCall)
deriving DecidableEq, Repr

/-- A line written to standard output: `fmt.Println("Error", err)` or
`fmt.Println(result)` for a delete call that was built. -/
inductive Line where
  | error (err : Error)
  | instancesDeleteCall (c : InstancesDeleteCall)
  | disksDeleteCall (c : DisksDeleteCall)
deriving DecidableEq, Repr

/-- What the code does to its surroundings: the requests sent to the
provider and the lines printed, both in order. -/
structure World where
  requests : List Request
  stdout : List Line
deriving DecidableEq, Repr

/-- The world before anything has happened. -/
def World.init : World := ⟨[], []⟩

/-- Go `fmt.Println`. -/
def World.println (w : World) (l : Line) : World :=
  { w with stdout := w.stdout ++ [l] }

/-- Record a request as sent. -/
def World.send (w : World) (r : Request) : World :=
  { w with requests := w.requests ++ [r] }

/-- The handle `*compute.Service`: the provider snapshot, given by its answer
to each list call that is executed.  One answer is one page. -/
structure Service where
  doZonesList : ZonesListCall → Except Error ZoneList
  doInstancesList : InstancesListCall → Except Error InstanceList
  doDisksList : DisksListCall → Except Error DiskList

/-- The call `computeService.Zones.List(project)`. -/
def Service.ZonesList (_ : Service) (project : String) : ZonesListCall :=
  ⟨project⟩

/-- The call `computeService.Instances.List(project, zone)`. -/
def Service.InstancesList (_ : Service) (project zone : String) : InstancesListCall :=
  ⟨project, zone, none, none⟩

/-- The call `computeService.Instances.Delete(project, zone, instance)`. -/
def Service.InstancesDelete (_ : Service) (project zone inst : String) :
    InstancesDeleteCall :=
  ⟨project, zone, inst⟩

/-- The call `computeService.Disks.List(project, zone)`. -/
def Service.DisksList (_ : Service) (project zone : String) : DisksListCall :=
  ⟨project, zone, none, none⟩

/-- The call `computeService.Disks.Delete(project, zone, disk)`. -/
def Service.DisksDelete (_ : Service) (project zone disk : String) : DisksDeleteCall :=
  ⟨project, zone, disk⟩

/-- The method `(*InstancesListCall).Filter`: sets the URL parameter on the
receiver (in place in Go, hence rebound by the caller here). -/
def InstancesListCall.Filter (c : InstancesListCall) (filter : String) :
    InstancesListCall :=
  { c with filter := some filter }

/-- The method `(*DisksListCall).Filter`. -/
def DisksListCall.Filter (c : DisksListCall) (filter : String) : DisksListCall :=
  { c with filter := some filter }

/-- The method `(*ZonesListCall).Do`: one request, one page. -/
def ZonesListCall.Do (c : ZonesListCall) (s : Service) (w : World) :
    Except Error ZoneList × World :=
  (s.doZonesList c, w.send (Request.zonesList c))

/-- The method `(*InstancesListCall).Do`: one request, one page. -/
def InstancesListCall.Do (c : InstancesListCall) (s : Service) (w : World) :
    Except Error InstanceList × World :=
  (s.doInstancesList c, w.send (Request.instancesList c))

/-- The method `(*DisksListCall).Do`: one request, one page. -/
def DisksListCall.Do (c : DisksListCall) (s : Service) (w : World) :
    Except Error DiskList × World :=
  (s.doDisksList c, w.send (Request.disksList c))

/-- Package variable `filters`. -/
def filters : List String := ["status = RUNNING"]

/-- Package variable `availableFilters`. -/
def availableFilters : List String := ["available = TRUE"]

/-- `TerminateInstance`: builds the delete call, prints it, returns `nil`.
`projectID` is the package variable read from the environment. -/
def TerminateInstance (projectID : String) (instanceID zoneName : String)
    (computeService : Service) (w : World) : Option Error × World :=
  let result := computeService.InstancesDelete projectID zoneName instanceID
  (none, w.println (Line.instancesDeleteCall result))

/-- `DeleteVolume`: builds the delete call, prints it, returns `nil`. -/
def DeleteVolume (projectID : String) (VolumeID zoneName : String)
    (computeService : Service) (w : World) : Option Error × World :=
  let result := computeService.DisksDelete projectID zoneName VolumeID
  (none, w.println (Line.disksDeleteCall result))

/-- The loop `for _, instance := range instanceList.Items` of
`DescribeInstancesWithTag`, on the slice `instances` and the world. -/
def instancesRange (projectID tagName tagValue zoneName : String)
    (computeService : Service) : List Instance → List String × World → List String × World
  | [], st => st
  | inst :: rest, (instances, w) =>
    if mapIndex inst.Labels tagName = tagValue then
      let instances := instances ++ [inst.Name]
      let w := (TerminateInstance projectID inst.Name zoneName computeService w).2
      instancesRange projectID tagName tagValue zoneName computeService rest (instances, w)
    else
      instancesRange projectID tagName tagValue zoneName computeService rest (instances, w)

/-- The loop `for _, zone := range zoneList.Items` of
`DescribeInstancesWithTag`. -/
def instancesZonesRange (projectID tagName tagValue : String) (computeService : Service) :
    List Zone → List String × World → List String × World
  | [], st => st
  | zone :: rest, (instances, w) =>
    let instanceListCall := computeService.InstancesList projectID zone.Name
    let instanceListCall := instanceListCall.Filter (stringsJoin filters " ")
    match instanceListCall.Do computeService w with
    | (Except.error err, w) =>
      instancesZonesRange projectID tagName tagValue computeService rest
        (instances, w.println (Line.error err))
    | (Except.ok instanceList, w) =>
      instancesZonesRange projectID tagName tagValue computeService rest
        (instancesRange projectID tagName tagValue zone.Name computeService
          instanceList.Items (instances, w))

/-- `DescribeInstancesWithTag`; the session set-up (`newSession`) is external
and its service handle is the argument `computeService`.  The value is the
pair the Go function returns, and the world it leaves. -/
def DescribeInstancesWithTag (projectID tagName tagValue : String)
    (computeService : Service) (w : World) : (List String × Option Error) × World :=
  let zoneListCall := computeService.ZonesList projectID
  match zoneListCall.Do computeService w with
  | (Except.error err, w) => (([], none), w.println (Line.error err))
  | (Except.ok zoneList, w) =>
    let st := instancesZonesRange projectID tagName tagValue computeService
      zoneList.Items ([], w)
    ((st.1, none), st.2)

/-- The loop `for _, volume := range volumesList.Items` of
`DescribeAvailableVolumes`. -/
def volumesRange (projectID tagName tagValue zoneName : String)
    (computeService : Service) : List Disk → List String × World → List String × World
  | [], st => st
  | volume :: rest, (volumes, w) =>
    if mapIndex volume.Labels tagName = tagValue then
      let volumes := volumes ++ [volume.Name]
      let w := (DeleteVolume projectID volume.Name zoneName computeService w).2
      volumesRange projectID tagName tagValue zoneName computeService rest (volumes, w)
    else
      volumesRange projectID tagName tagValue zoneName computeService rest (volumes, w)

/-- The loop `for _, zone := range zoneList.Items` of
`DescribeAvailableVolumes`. -/
def volumesZonesRange (projectID tagName tagValue : String) (computeService : Service) :
    List Zone → List String × World → List String × World
  | [], st => st
  | zone :: rest, (volumes, w) =>
    let volumesListCall := computeService.DisksList projectID zone.Name
    let volumesListCall := volumesListCall.Filter (stringsJoin filters " ")
    match volumesListCall.Do computeService w with
    | (Except.error err, w) =>
      volumesZonesRange projectID tagName tagValue computeService rest
        (volumes, w.println (Line.error err))
    | (Except.ok volumesList, w) =>
      volumesZonesRange projectID tagName tagValue computeService rest
        (volumesRange projectID tagName tagValue zone.Name computeService
          volumesList.Items (volumes, w))

/-- `DescribeAvailableVolumes`, with the service handle of `newSession` as
argument. -/
def DescribeAvailableVolumes (projectID tagName tagValue : String)
    (computeService : Service) (w : World) : (List String × Option Error) × World :=
  let zoneListCall := computeService.ZonesList projectID
  match zoneListCall.Do computeService w with
  | (Except.error err, w) => (([], none), w.println (Line.error err))
  | (Except.ok zoneList, w) =>
    let st := volumesZonesRange projectID tagName tagValue computeService
      zoneList.Items ([], w)
    ((st.1, none), st.2)

/-! ## Concrete snapshots -/

/-- Zones `z1`, `z2`; `z1` lists instances `a` (name:cluster1) and `b`
(name:other), `z2` lists `c` (name:cluster1); `z1` lists disks `d1` and `d2`
(both name:cluster1), `z2` lists disk `d3` (name:other). -/
def scenario : Service where
  doZonesList := fun _ => Except.ok ⟨[⟨"z1"⟩, ⟨"z2"⟩], ""⟩
  doInstancesList := fun c =>
    if c.zone = "z1" then
      Except.ok ⟨[⟨"a", [("name", "cluster1")], "RUNNING"⟩,
                  ⟨"b", [("name", "other")], "RUNNING"⟩], ""⟩
    else if c.zone = "z2" then
      Except.ok ⟨[⟨"c", [("name", "cluster1")], "RUNNING"⟩], ""⟩
    else Except.error "unknown zone"
  doDisksList := fun c =>
    if c.zone = "z1" then
      Except.ok ⟨[⟨"d1", [("name", "cluster1")], "RUNNING"⟩,
                  ⟨"d2", [("name", "cluster1")], "RUNNING"⟩], ""⟩
    else if c.zone = "z2" then
      Except.ok ⟨[⟨"d3", [("name", "other")], "RUNNING"⟩], ""⟩
    else Except.error "unknown zone"

/-- The answers of `scenario` to the instance listings, by zone name. -/
def scenarioInstances (zoneName : String) : InstanceList :=
  if zoneName = "z1" then
    ⟨[⟨"a", [("name", "cluster1")], "RUNNING"⟩, ⟨"b", [("name", "other")], "RUNNING"⟩], ""⟩
  else ⟨[⟨"c", [("name", "cluster1")], "RUNNING"⟩], ""⟩

/-- One zone whose only instance and only disk carry no label at all. -/
def unlabelled : Service where
  doZonesList := fun _ => Except.ok ⟨[⟨"z1"⟩], ""⟩
  doInstancesList := fun _ => Except.ok ⟨[⟨"x", [], "RUNNING"⟩], ""⟩
  doDisksList := fun _ => Except.ok ⟨[⟨"v", [], "RUNNING"⟩], ""⟩

/-- A provider whose zone enumeration fails. -/
def zonesDown : Service where
  doZonesList := fun _ => Except.error "unavailable"
  doInstancesList := fun _ => Except.ok ⟨[⟨"a", [("name", "cluster1")], "RUNNING"⟩], ""⟩
  doDisksList := fun _ => Except.ok ⟨[⟨"d1", [("name", "cluster1")], "RUNNING"⟩], ""⟩

/-- Three zones; the listing of `z2` fails, `z1` lists `a` and `z3` lists
`c`, both name:cluster1. -/
def oneDown : Service where
  doZonesList := fun _ => Except.ok ⟨[⟨"z1"⟩, ⟨"z2"⟩, ⟨"z3"⟩], ""⟩
  doInstancesList := fun c =>
    if c.zone = "z1" then Except.ok ⟨[⟨"a", [("name", "cluster1")], "RUNNING"⟩], ""⟩
    else if c.zone = "z3" then Except.ok ⟨[⟨"c", [("name", "cluster1")], "RUNNING"⟩], ""⟩
    else Except.error "zone unreachable"
  doDisksList := fun _ => Except.ok ⟨[], ""⟩

/-- As `oneDown`, but the listing of `z2` succeeds and is empty. -/
def noneDown : Service where
  doZonesList := fun _ => Except.ok ⟨[⟨"z1"⟩, ⟨"z2"⟩, ⟨"z3"⟩], ""⟩
  doInstancesList := fun c =>
    if c.zone = "z1" then Except.ok ⟨[⟨"a", [("name", "cluster1")], "RUNNING"⟩], ""⟩
    else if c.zone = "z3" then Except.ok ⟨[⟨"c", [("name", "cluster1")], "RUNNING"⟩], ""⟩
    else Except.ok ⟨[], ""⟩
  doDisksList := fun _ => Except.ok ⟨[], ""⟩

/-- One zone whose inventory comes in two pages: the first page holds `a`
(disk `d1`) and the token `t2`, the page asked for with `t2` holds `c`
(disk `d3`); all carry name:cluster1. -/
def paged : Service where
  doZonesList := fun _ => Except.ok ⟨[⟨"z1"⟩], ""⟩
  doInstancesList := fun c =>
    if c.pageToken = none then
      Except.ok ⟨[⟨"a", [("name", "cluster1")], "RUNNING"⟩], "t2"⟩
    else if c.pageToken = some "t2" then
      Except.ok ⟨[⟨"c", [("name", "cluster1")], "RUNNING"⟩], ""⟩
    else Except.error "invalid page token"
  doDisksList := fun c =>
    if c.pageToken = none then
      Except.ok ⟨[⟨"d1", [("name", "cluster1")], "RUNNING"⟩], "t2"⟩
    else if c.pageToken = some "t2" then
      Except.ok ⟨[⟨"d3", [("name", "cluster1")], "RUNNING"⟩], ""⟩
    else Except.error "invalid page token"

/-- As `paged`, with the second pages gone. -/
def firstPageOnly : Service where
  doZonesList := fun _ => Except.ok ⟨[⟨"z1"⟩], ""⟩
  doInstancesList := fun c =>
    if c.pageToken = none then
      Except.ok ⟨[⟨"a", [("name", "cluster1")], "RUNNING"⟩], "t2"⟩
    else Except.error "invalid page token"
  doDisksList := fun c =>
    if c.pageToken = none then
      Except.ok ⟨[⟨"d1", [("name", "cluster1")], "RUNNING"⟩], "t2"⟩
    else Except.error "invalid page token"

/-- Modelled from the spec: the restriction of a listing, at the provider, to
the status filter of the request ("restricted server-side to the status
filter"); the compute API that does it is not in the source.  A request
without a filter is unrestricted, a filter `status = X` keeps the resources
whose status is `X`. -/
def statusAccepts (filter : Option String) (status : String) : Bool :=
  match filter with
  | none => true
  | some f => decide (f = "status = " ++ status)

/-- Modelled from the spec: a provider holding an inventory of zones,
instances and disks (by zone name), which answers each listing in one page
with the resources of the zone that the request's status filter accepts. -/
def inventoryProvider (zones : List Zone) (instances : String → List Instance)
    (disks : String → List Disk) : Service where
  doZonesList := fun _ => Except.ok ⟨zones, ""⟩
  doInstancesList := fun c =>
    Except.ok ⟨(instances c.zone).filter fun i => statusAccepts c.filter i.Status, ""⟩
  doDisksList := fun c =>
    Except.ok ⟨(disks c.zone).filter fun d => statusAccepts c.filter d.Status, ""⟩

/-- A provider honours the status filter of disk listings: a successful
answer to a request with the filter `status = st` holds only disks of status
`st`. -/
def honoursStatusFilter (s : Service) : Prop :=
  ∀ (c : DisksListCall) (l : DiskList), s.doDisksList c = Except.ok l →
    ∀ st : String, c.filter = some ("status = " ++ st) → ∀ d ∈ l.Items, d.Status = st

/-- The disks of the inventory `attached`: `d1` (running, name:cluster1), `d2`
(in use, name:cluster1), `d3` (running, name:other). -/
def attachedDisks (_ : String) : List Disk :=
  [⟨"d1", [("name", "cluster1")], "RUNNING"⟩,
   ⟨"d2", [("name", "cluster1")], "in-use"⟩,
   ⟨"d3", [("name", "other")], "RUNNING"⟩]

/-- A filter-honouring provider with one zone, no instances and the disks
`attachedDisks`. -/
def attached : Service :=
  inventoryProvider [⟨"z1"⟩] (fun _ => []) attachedDisks

/-- A filter-honouring provider with one zone and two running disks: `v`
without any label, `w` with the label `name` set to the empty string. -/
def bareDisks : Service :=
  inventoryProvider [⟨"z1"⟩] (fun _ => [])
    (fun _ => [⟨"v", [], "RUNNING"⟩, ⟨"w", [("name", "")], "RUNNING"⟩])

/-- A filter-honouring provider with one zone and two running instances: `x`
without any label, `y` with the label `name` set to the empty string. -/
def bareInstances : Service :=
  inventoryProvider [⟨"z1"⟩]
    (fun _ => [⟨"x", [], "RUNNING"⟩, ⟨"y", [("name", "")], "RUNNING"⟩]) (fun _ => [])

/-! ## Vocabulary of the statements -/

/-- The label test of both loops, `labels[tagName] == tagValue`. -/
def labelMatch (tagName tagValue : String) (labels : Labels) : Bool :=
  decide (mapIndex labels tagName = tagValue)

/-- The list request a sweep of instances sends for a zone. -/
def instancesRequest (projectID zoneName : String) : InstancesListCall :=
  ⟨projectID, zoneName, some "status = RUNNING", none⟩

/-- The list request a sweep of disks sends for a zone. -/
def disksRequest (projectID zoneName : String) : DisksListCall :=
  ⟨projectID, zoneName, some "status = RUNNING", none⟩

/-- The instances listed for a zone: the items of the answer to the zone's
request, none when the listing call fails. -/
def zoneInstances (projectID : String) (s : Service) (zoneName : String) : List Instance :=
  match s.doInstancesList (instancesRequest projectID zoneName) with
  | Except.ok l => l.Items
  | Except.error _ => []

/-- The disks listed for a zone. -/
def zoneDisks (projectID : String) (s : Service) (zoneName : String) : List Disk :=
  match s.doDisksList (disksRequest projectID zoneName) with
  | Except.ok l => l.Items
  | Except.error _ => []

/-- The zones enumerated: the items of the answer to the zone request, none
when it fails. -/
def enumeratedZones (projectID : String) (s : Service) : List Zone :=
  match s.doZonesList ⟨projectID⟩ with
  | Except.ok l => l.Items
  | Except.error _ => []

/-- The instances listed over all enumerated zones, each with the name of
the zone it was listed in, in zone order and then listing order. -/
def listedInstances (projectID : String) (s : Service) : List (String × Instance) :=
  (enumeratedZones projectID s).flatMap fun z =>
    (zoneInstances projectID s z.Name).map fun i => (z.Name, i)

/-- The disks listed over all enumerated zones. -/
def listedDisks (projectID : String) (s : Service) : List (String × Disk) :=
  (enumeratedZones projectID s).flatMap fun z =>
    (zoneDisks projectID s z.Name).map fun d => (z.Name, d)

/-- The lines a zone contributes to standard output in a sweep of instances. -/
def zoneInstanceLines (projectID tagName tagValue : String) (s : Service)
    (zoneName : String) : List Line :=
  match s.doInstancesList (instancesRequest projectID zoneName) with
  | Except.ok l => (l.Items.filter fun i => labelMatch tagName tagValue i.Labels).map
      fun i => Line.instancesDeleteCall ⟨projectID, zoneName, i.Name⟩
  | Except.error err => [Line.error err]

/-- The lines a zone contributes to standard output in a sweep of disks. -/
def zoneDiskLines (projectID tagName tagValue : String) (s : Service)
    (zoneName : String) : List Line :=
  match s.doDisksList (disksRequest projectID zoneName) with
  | Except.ok l => (l.Items.filter fun d => labelMatch tagName tagValue d.Labels).map
      fun d => Line.disksDeleteCall ⟨projectID, zoneName, d.Name⟩
  | Except.error err => [Line.error err]

/-- The `TerminateInstance` calls visible on standard output. -/
def terminateCalls (out : List Line) : List InstancesDeleteCall :=
  out.filterMap fun l =>
    match l with
    | Line.instancesDeleteCall c => some c
    | _ => none

/-- The `DeleteVolume` calls visible on standard output. -/
def deleteVolumeCalls (out : List Line) : List DisksDeleteCall :=
  out.filterMap fun l =>
    match l with
    | Line.disksDeleteCall c => some c
    | _ => none

/-- The delete requests among the requests sent. -/
def deleteRequests (rs : List Request) : List Request :=
  rs.filter fun r =>
    match r with
    | Request.instancesDelete _ => true
    | Request.disksDelete _ => true
    | _ => false

/-- The errors visible on standard output. -/
def errorLines (out : List Line) : List Error :=
  out.filterMap fun l =>
    match l with
    | Line.error err => some err
    | _ => none

/-- Whether the instance listing of a zone fails. -/
def instanceListingFails (projectID : String) (s : Service) (zoneName : String) : Bool :=
  match s.doInstancesList (instancesRequest projectID zoneName) with
  | Except.ok _ => false
  | Except.error _ => true

/-- The number of enumerated zones whose instance listing fails. -/
def skippedZones (projectID : String) (s : Service) : Nat :=
  (enumeratedZones projectID s).countP fun z => instanceListingFails projectID s z.Name

/-! ## The loops in closed form -/

theorem instancesRequest_eq (projectID zoneName : String) (s : Service) :
    (s.InstancesList projectID zoneName).Filter (stringsJoin filters " ")
      = instancesRequest projectID zoneName := by
  have h : stringsJoin filters " " = "status = RUNNING" := by decide
  simp [Service.InstancesList, InstancesListCall.Filter, instancesRequest, h]

theorem disksRequest_eq (projectID zoneName : String) (s : Service) :
    (s.DisksList projectID zoneName).Filter (stringsJoin filters " ")
      = disksRequest projectID zoneName := by
  have h : stringsJoin filters " " = "status = RUNNING" := by decide
  simp [Service.DisksList, DisksListCall.Filter, disksRequest, h]

theorem instancesRange_eq (projectID tagName tagValue zoneName : String) (s : Service)
    (items : List Instance) (acc : List String) (w : World) :
    instancesRange projectID tagName tagValue zoneName s items (acc, w)
      = (acc ++ (items.filter fun i => labelMatch tagName tagValue i.Labels).map (·.Name),
         ⟨w.requests, w.stdout ++
           (items.filter fun i => labelMatch tagName tagValue i.Labels).map
             fun i => Line.instancesDeleteCall ⟨projectID, zoneName, i.Name⟩⟩) := by
  induction items generalizing acc w with
  | nil => simp [instancesRange]
  | cons i rest ih =>
    by_cases h : mapIndex i.Labels tagName = tagValue
    · simp [instancesRange, h, ih, labelMatch, TerminateInstance, World.println,
        Service.InstancesDelete]
    · simp [instancesRange, h, ih, labelMatch]

theorem volumesRange_eq (projectID tagName tagValue zoneName : String) (s : Service)
    (items : List Disk) (acc : List String) (w : World) :
    volumesRange projectID tagName tagValue zoneName s items (acc, w)
      = (acc ++ (items.filter fun d => labelMatch tagName tagValue d.Labels).map (·.Name),
         ⟨w.requests, w.stdout ++
           (items.filter fun d => labelMatch tagName tagValue d.Labels).map
             fun d => Line.disksDeleteCall ⟨projectID, zoneName, d.Name⟩⟩) := by
  induction items generalizing acc w with
  | nil => simp [volumesRange]
  | cons d rest ih =>
    by_cases h : mapIndex d.Labels tagName = tagValue
    · simp [volumesRange, h, ih, labelMatch, DeleteVolume, World.println,
        Service.DisksDelete]
    · simp [volumesRange, h, ih, labelMatch]

theorem instancesZonesRange_eq (projectID tagName tagValue : String) (s : Service)
    (zones : List Zone) (acc : List String) (w : World) :
    instancesZonesRange projectID tagName tagValue s zones (acc, w)
      = (acc ++ zones.flatMap (fun z =>
            ((zoneInstances projectID s z.Name).filter
              fun i => labelMatch tagName tagValue i.Labels).map (·.Name)),
         ⟨w.requests ++ zones.map
            (fun z => Request.instancesList (instancesRequest projectID z.Name)),
          w.stdout ++ zones.flatMap
            (fun z => zoneInstanceLines projectID tagName tagValue s z.Name)⟩) := by
  induction zones generalizing acc w with
  | nil => simp [instancesZonesRange]
  | cons z rest ih =>
    rw [instancesZonesRange, instancesRequest_eq]
    cases hd : s.doInstancesList (instancesRequest projectID z.Name) with
    | error err =>
      simp [InstancesListCall.Do, hd, ih, World.send, World.println, zoneInstances,
        zoneInstanceLines]
    | ok l =>
      simp [InstancesListCall.Do, hd, ih, World.send, instancesRange_eq, zoneInstances,
        zoneInstanceLines]

theorem volumesZonesRange_eq (projectID tagName tagValue : String) (s : Service)
    (zones : List Zone) (acc : List String) (w : World) :
    volumesZonesRange projectID tagName tagValue s zones (acc, w)
      = (acc ++ zones.flatMap (fun z =>
            ((zoneDisks projectID s z.Name).filter
              fun d => labelMatch tagName tagValue d.Labels).map (·.Name)),
         ⟨w.requests ++ zones.map
            (fun z => Request.disksList (disksRequest projectID z.Name)),
          w.stdout ++ zones.flatMap
            (fun z => zoneDiskLines projectID tagName tagValue s z.Name)⟩) := by
  induction zones generalizing acc w with
  | nil => simp [volumesZonesRange]
  | cons z rest ih =>
    rw [volumesZonesRange, disksRequest_eq]
    cases hd : s.doDisksList (disksRequest projectID z.Name) with
    | error err =>
      simp [DisksListCall.Do, hd, ih, World.send, World.println, zoneDisks, zoneDiskLines]
    | ok l =>
      simp [DisksListCall.Do, hd, ih, World.send, volumesRange_eq, zoneDisks, zoneDiskLines]

/-! ## The two sweeps in closed form -/

theorem filter_flatMap_map {α β : Type} (zs : List α) (f : α → List β) (q : β → Bool)
    (g : α → String) :
    ((zs.flatMap fun z => (f z).map fun i => (g z, i)).filter fun x => q x.2)
      = zs.flatMap fun z => ((f z).filter q).map fun i => (g z, i) := by
  induction zs with
  | nil => simp
  | cons z rest ih =>
    simp only [List.flatMap_cons, List.filter_append, ih]
    congr 1
    induction f z with
    | nil => simp
    | cons i is ih2 =>
      by_cases hq : q i = true
      · simp [List.filter_cons, hq, ih2]
      · simp [List.filter_cons, hq, ih2]

theorem map_flatMap_pair {α β γ : Type} (zs : List α) (f : α → List β) (g : α → String)
    (k : String × β → γ) :
    (zs.flatMap fun z => (f z).map fun i => (g z, i)).map k
      = zs.flatMap fun z => (f z).map fun i => k (g z, i) := by
  induction zs with
  | nil => simp
  | cons z rest ih => simp [List.flatMap_cons, ih]

theorem DescribeInstancesWithTag_eq (projectID tagName tagValue : String) (s : Service)
    (w : World) :
    DescribeInstancesWithTag projectID tagName tagValue s w
      = match s.doZonesList ⟨projectID⟩ with
        | Except.error err =>
          (([], none), ⟨w.requests ++ [Request.zonesList ⟨projectID⟩],
            w.stdout ++ [Line.error err]⟩)
        | Except.ok zl =>
          ((zl.Items.flatMap (fun z =>
              ((zoneInstances projectID s z.Name).filter
                fun i => labelMatch tagName tagValue i.Labels).map (·.Name)), none),
           ⟨w.requests ++ Request.zonesList ⟨projectID⟩ :: zl.Items.map
              (fun z => Request.instancesList (instancesRequest projectID z.Name)),
            w.stdout ++ zl.Items.flatMap
              (fun z => zoneInstanceLines projectID tagName tagValue s z.Name)⟩) := by
  unfold DescribeInstancesWithTag
  cases hz : s.doZonesList ⟨projectID⟩ with
  | error err => simp [ZonesListCall.Do, Service.ZonesList, hz, World.send, World.println]
  | ok zl =>
    simp [ZonesListCall.Do, Service.ZonesList, hz, World.send, instancesZonesRange_eq]

theorem DescribeAvailableVolumes_eq (projectID tagName tagValue : String) (s : Service)
    (w : World) :
    DescribeAvailableVolumes projectID tagName tagValue s w
      = match s.doZonesList ⟨projectID⟩ with
        | Except.error err =>
          (([], none), ⟨w.requests ++ [Request.zonesList ⟨projectID⟩],
            w.stdout ++ [Line.error err]⟩)
        | Except.ok zl =>
          ((zl.Items.flatMap (fun z =>
              ((zoneDisks projectID s z.Name).filter
                fun d => labelMatch tagName tagValue d.Labels).map (·.Name)), none),
           ⟨w.requests ++ Request.zonesList ⟨projectID⟩ :: zl.Items.map
              (fun z => Request.disksList (disksRequest projectID z.Name)),
            w.stdout ++ zl.Items.flatMap
              (fun z => zoneDiskLines projectID tagName tagValue s z.Name)⟩) := by
  unfold DescribeAvailableVolumes
  cases hz : s.doZonesList ⟨projectID⟩ with
  | error err => simp [ZonesListCall.Do, Service.ZonesList, hz, World.send, World.println]
  | ok zl =>
    simp [ZonesListCall.Do, Service.ZonesList, hz, World.send, volumesZonesRange_eq]

/-- The names a sweep of instances returns, over the enumerated zones. -/
theorem instances_names (projectID tagName tagValue : String) (s : Service) (w : World) :
    (DescribeInstancesWithTag projectID tagName tagValue s w).1.1
      = (enumeratedZones projectID s).flatMap fun z =>
          ((zoneInstances projectID s z.Name).filter
            fun i => labelMatch tagName tagValue i.Labels).map (·.Name) := by
  rw [DescribeInstancesWithTag_eq]
  unfold enumeratedZones
  cases s.doZonesList ⟨projectID⟩ <;> simp

/-- The names a sweep of disks returns, over the enumerated zones. -/
theorem volumes_names (projectID tagName tagValue : String) (s : Service) (w : World) :
    (DescribeAvailableVolumes projectID tagName tagValue s w).1.1
      = (enumeratedZones projectID s).flatMap fun z =>
          ((zoneDisks projectID s z.Name).filter
            fun d => labelMatch tagName tagValue d.Labels).map (·.Name) := by
  rw [DescribeAvailableVolumes_eq]
  unfold enumeratedZones
  cases s.doZonesList ⟨projectID⟩ <;> simp

/-- The names a sweep of instances returns, over the listed instances. -/
theorem instances_names_listed (projectID tagName tagValue : String) (s : Service)
    (w : World) :
    (DescribeInstancesWithTag projectID tagName tagValue s w).1.1
      = ((listedInstances projectID s).filter
          fun x => labelMatch tagName tagValue x.2.Labels).map (·.2.Name) := by
  rw [instances_names, listedInstances,
    filter_flatMap_map _ _ (fun i : Instance => labelMatch tagName tagValue i.Labels),
    map_flatMap_pair]

/-- The names a sweep of disks returns, over the listed disks. -/
theorem volumes_names_listed (projectID tagName tagValue : String) (s : Service)
    (w : World) :
    (DescribeAvailableVolumes projectID tagName tagValue s w).1.1
      = ((listedDisks projectID s).filter
          fun x => labelMatch tagName tagValue x.2.Labels).map (·.2.Name) := by
  rw [volumes_names, listedDisks,
    filter_flatMap_map _ _ (fun d : Disk => labelMatch tagName tagValue d.Labels),
    map_flatMap_pair]

/-- Neither sweep ever returns an error. -/
theorem sweeps_err (projectID tagName tagValue : String) (s : Service) (w : World) :
    (DescribeInstancesWithTag projectID tagName tagValue s w).1.2 = none ∧
    (DescribeAvailableVolumes projectID tagName tagValue s w).1.2 = none := by
  rw [DescribeInstancesWithTag_eq, DescribeAvailableVolumes_eq]
  cases s.doZonesList ⟨projectID⟩ <;> simp

/-- The requests a sweep of instances sends. -/
theorem instances_requests (projectID tagName tagValue : String) (s : Service) (w : World) :
    (DescribeInstancesWithTag projectID tagName tagValue s w).2.requests
      = w.requests ++ Request.zonesList ⟨projectID⟩ :: (enumeratedZones projectID s).map
          fun z => Request.instancesList (instancesRequest projectID z.Name) := by
  rw [DescribeInstancesWithTag_eq]
  unfold enumeratedZones
  cases s.doZonesList ⟨projectID⟩ <;> simp

/-- The requests a sweep of disks sends. -/
theorem volumes_requests (projectID tagName tagValue : String) (s : Service) (w : World) :
    (DescribeAvailableVolumes projectID tagName tagValue s w).2.requests
      = w.requests ++ Request.zonesList ⟨projectID⟩ :: (enumeratedZones projectID s).map
          fun z => Request.disksList (disksRequest projectID z.Name) := by
  rw [DescribeAvailableVolumes_eq]
  unfold enumeratedZones
  cases s.doZonesList ⟨projectID⟩ <;> simp

/-- The lines a sweep of instances prints. -/
theorem instances_stdout (projectID tagName tagValue : String) (s : Service) (w : World) :
    (DescribeInstancesWithTag projectID tagName tagValue s w).2.stdout
      = w.stdout ++ match s.doZonesList ⟨projectID⟩ with
          | Except.error err => [Line.error err]
          | Except.ok zl => zl.Items.flatMap
              fun z => zoneInstanceLines projectID tagName tagValue s z.Name := by
  rw [DescribeInstancesWithTag_eq]
  cases s.doZonesList ⟨projectID⟩ <;> simp

/-- The lines a sweep of disks prints. -/
theorem volumes_stdout (projectID tagName tagValue : String) (s : Service) (w : World) :
    (DescribeAvailableVolumes projectID tagName tagValue s w).2.stdout
      = w.stdout ++ match s.doZonesList ⟨projectID⟩ with
          | Except.error err => [Line.error err]
          | Except.ok zl => zl.Items.flatMap
              fun z => zoneDiskLines projectID tagName tagValue s z.Name := by
  rw [DescribeAvailableVolumes_eq]
  cases s.doZonesList ⟨projectID⟩ <;> simp

theorem terminateCalls_append (a b : List Line) :
    terminateCalls (a ++ b) = terminateCalls a ++ terminateCalls b := by
  simp [terminateCalls, List.filterMap_append]

theorem deleteVolumeCalls_append (a b : List Line) :
    deleteVolumeCalls (a ++ b) = deleteVolumeCalls a ++ deleteVolumeCalls b := by
  simp [deleteVolumeCalls, List.filterMap_append]

theorem terminateCalls_map (l : List Instance) (f : Instance → InstancesDeleteCall) :
    terminateCalls (l.map fun i => Line.instancesDeleteCall (f i)) = l.map f := by
  induction l with
  | nil => rfl
  | cons i rest ih =>
    simp only [terminateCalls, List.map_cons, List.filterMap_cons] at ih ⊢
    rw [ih]

theorem deleteVolumeCalls_map (l : List Disk) (f : Disk → DisksDeleteCall) :
    deleteVolumeCalls (l.map fun d => Line.disksDeleteCall (f d)) = l.map f := by
  induction l with
  | nil => rfl
  | cons d rest ih =>
    simp only [deleteVolumeCalls, List.map_cons, List.filterMap_cons] at ih ⊢
    rw [ih]

theorem terminateCalls_zone (projectID tagName tagValue : String) (s : Service)
    (zoneName : String) :
    terminateCalls (zoneInstanceLines projectID tagName tagValue s zoneName)
      = ((zoneInstances projectID s zoneName).filter
          fun i => labelMatch tagName tagValue i.Labels).map
            fun i => ⟨projectID, zoneName, i.Name⟩ := by
  unfold zoneInstanceLines zoneInstances
  cases s.doInstancesList (instancesRequest projectID zoneName) with
  | error err => simp [terminateCalls]
  | ok l => exact terminateCalls_map _ _

theorem deleteVolumeCalls_zone (projectID tagName tagValue : String) (s : Service)
    (zoneName : String) :
    deleteVolumeCalls (zoneDiskLines projectID tagName tagValue s zoneName)
      = ((zoneDisks projectID s zoneName).filter
          fun d => labelMatch tagName tagValue d.Labels).map
            fun d => ⟨projectID, zoneName, d.Name⟩ := by
  unfold zoneDiskLines zoneDisks
  cases s.doDisksList (disksRequest projectID zoneName) with
  | error err => simp [deleteVolumeCalls]
  | ok l => exact deleteVolumeCalls_map _ _

theorem terminateCalls_flatMap (zs : List Zone) (f : Zone → List Line) :
    terminateCalls (zs.flatMap f) = zs.flatMap fun z => terminateCalls (f z) := by
  induction zs with
  | nil => rfl
  | cons z rest ih => simp [List.flatMap_cons, terminateCalls_append, ih]

theorem deleteVolumeCalls_flatMap (zs : List Zone) (f : Zone → List Line) :
    deleteVolumeCalls (zs.flatMap f) = zs.flatMap fun z => deleteVolumeCalls (f z) := by
  induction zs with
  | nil => rfl
  | cons z rest ih => simp [List.flatMap_cons, deleteVolumeCalls_append, ih]

/-- The `TerminateInstance` calls of a sweep of instances: one per listed
instance that passes the label test, for its name and the zone it was
listed in. -/
theorem instances_calls (projectID tagName tagValue : String) (s : Service) :
    terminateCalls (DescribeInstancesWithTag projectID tagName tagValue s World.init).2.stdout
      = ((listedInstances projectID s).filter
          fun x => labelMatch tagName tagValue x.2.Labels).map
            fun x => ⟨projectID, x.1, x.2.Name⟩ := by
  rw [instances_stdout, listedInstances,
    filter_flatMap_map _ _ (fun i : Instance => labelMatch tagName tagValue i.Labels),
    map_flatMap_pair]
  unfold enumeratedZones
  cases s.doZonesList ⟨projectID⟩ with
  | error err => simp [World.init, terminateCalls]
  | ok zl =>
    simp only [World.init, List.nil_append, terminateCalls_flatMap, terminateCalls_zone]

/-- The `DeleteVolume` calls of a sweep of disks. -/
theorem volumes_calls (projectID tagName tagValue : String) (s : Service) :
    deleteVolumeCalls (DescribeAvailableVolumes projectID tagName tagValue s World.init).2.stdout
      = ((listedDisks projectID s).filter
          fun x => labelMatch tagName tagValue x.2.Labels).map
            fun x => ⟨projectID, x.1, x.2.Name⟩ := by
  rw [volumes_stdout, listedDisks,
    filter_flatMap_map _ _ (fun d : Disk => labelMatch tagName tagValue d.Labels),
    map_flatMap_pair]
  unfold enumeratedZones
  cases s.doZonesList ⟨projectID⟩ with
  | error err => simp [World.init, deleteVolumeCalls]
  | ok zl =>
    simp only [World.init, List.nil_append, deleteVolumeCalls_flatMap, deleteVolumeCalls_zone]

/-- With a non-empty `tagValue`, the label test holds exactly when the labels
contain `tagName` with the value `tagValue`. -/
theorem labelMatch_eq_lookup (tagName tagValue : String) (hv : tagValue ≠ "")
    (labels : Labels) :
    labelMatch tagName tagValue labels = decide (labels.lookup tagName = some tagValue) := by
  unfold labelMatch mapIndex
  cases h : List.lookup tagName labels with
  | none =>
    have h2 : ¬ ("" = tagValue) := fun e => hv e.symm
    simp [h2]
  | some v => simp

/-! ## The claims -/

/-- C1, refuted as stated: with the empty `tagValue`, zone enumeration and
the listing succeeding, the result holds `x`, whose labels do not map `name`
to anything, next to `y`, the only instance whose labels map `name` to the
empty string. -/
theorem C1_empty_value_returns_unlabelled_instance :
    bareInstances.doZonesList ⟨"p"⟩ = Except.ok ⟨[⟨"z1"⟩], ""⟩ ∧
    bareInstances.doInstancesList ⟨"p", "z1", some "status = RUNNING", none⟩
      = Except.ok ⟨[⟨"x", [], "RUNNING"⟩, ⟨"y", [("name", "")], "RUNNING"⟩], ""⟩ ∧
    ([] : Labels).lookup "name" = none ∧
    ([("name", "")] : Labels).lookup "name" = some "" ∧
    (DescribeInstancesWithTag "p" "name" "" bareInstances World.init).1
      = (["x", "y"], none) :=
  ⟨rfl, congrArg Except.ok (by decide), by decide, by decide, by decide⟩

/-- C1, amended: for every `tagName` and every non-empty `tagValue`, when zone
enumeration and every per-zone instance listing succeed,
`DescribeInstancesWithTag` returns, with a nil error, exactly the names of
the listed instances whose labels contain `tagName` with the value
`tagValue`, in the order the zones were enumerated and in listing order
within a zone; every such instance is included. -/
theorem C1_instances_listed_in_zone_order (projectID tagName tagValue : String)
    (s : Service) (zones : List Zone) (tok : String) (answers : String → InstanceList)
    (hv : tagValue ≠ "")
    (hz : s.doZonesList ⟨projectID⟩ = Except.ok ⟨zones, tok⟩)
    (hl : ∀ z ∈ zones,
      s.doInstancesList ⟨projectID, z.Name, some "status = RUNNING", none⟩
        = Except.ok (answers z.Name)) :
    (DescribeInstancesWithTag projectID tagName tagValue s World.init).1
        = (zones.flatMap (fun z =>
            ((answers z.Name).Items.filter
              fun i => decide (i.Labels.lookup tagName = some tagValue)).map (·.Name)),
           none) ∧
    ∀ z ∈ zones, ∀ i ∈ (answers z.Name).Items, i.Labels.lookup tagName = some tagValue →
      i.Name ∈ (DescribeInstancesWithTag projectID tagName tagValue s World.init).1.1 := by
  have hnames : (DescribeInstancesWithTag projectID tagName tagValue s World.init).1.1
      = zones.flatMap (fun z => ((answers z.Name).Items.filter
          fun i => decide (i.Labels.lookup tagName = some tagValue)).map (·.Name)) := by
    rw [instances_names]
    simp only [enumeratedZones, hz]
    apply List.flatMap_congr
    intro z hzm
    have h := hl z hzm
    simp only [zoneInstances, instancesRequest, h, labelMatch_eq_lookup tagName tagValue hv]
  refine ⟨Prod.ext hnames (sweeps_err projectID tagName tagValue s World.init).1, ?_⟩
  intro z hzm i hi hm
  rw [hnames]
  simp only [List.mem_flatMap, List.mem_map, List.mem_filter]
  exact ⟨z, hzm, i, ⟨hi, by simpa using hm⟩, rfl⟩

/-- C1 amended, on the two-zone scenario: the result is `["a", "c"]`. -/
theorem C1_instances_listed_in_zone_order_witness :
    "cluster1" ≠ "" ∧
    scenario.doZonesList ⟨"p"⟩ = Except.ok ⟨[⟨"z1"⟩, ⟨"z2"⟩], ""⟩ ∧
    (DescribeInstancesWithTag "p" "name" "cluster1" scenario World.init).1
      = (["a", "c"], none) :=
  ⟨by decide, rfl, (C1_instances_listed_in_zone_order "p" "name" "cluster1" scenario
      [⟨"z1"⟩, ⟨"z2"⟩] "" scenarioInstances (by decide) rfl
      (by intro z hz; simp at hz; rcases hz with rfl | rfl <;> rfl)).1.trans (by decide)⟩

/-- C2, refuted as stated: with the empty `tagValue`, an instance and a disk
that carry no label `name` at all are returned and handed to
`TerminateInstance` and `DeleteVolume`. -/
theorem C2_absent_key_matches_empty_value :
    listedInstances "p" unlabelled = [("z1", ⟨"x", [], "RUNNING"⟩)] ∧
    ([] : Labels).lookup "name" = none ∧
    (DescribeInstancesWithTag "p" "name" "" unlabelled World.init).1.1 = ["x"] ∧
    terminateCalls (DescribeInstancesWithTag "p" "name" "" unlabelled World.init).2.stdout
      = [⟨"p", "z1", "x"⟩] ∧
    listedDisks "p" unlabelled = [("z1", ⟨"v", [], "RUNNING"⟩)] ∧
    (DescribeAvailableVolumes "p" "name" "" unlabelled World.init).1.1 = ["v"] ∧
    deleteVolumeCalls (DescribeAvailableVolumes "p" "name" "" unlabelled World.init).2.stdout
      = [⟨"p", "z1", "v"⟩] := by
  decide

/-- C2, amended: for every `tagName` and every non-empty `tagValue`, the
entries of the result and the `TerminateInstance` (`DeleteVolume`) calls are
one for each listed resource whose labels contain `tagName` with the value
`tagValue`, in listing order; a listed resource whose labels lack `tagName`,
or map it to another value, contributes neither an entry nor a call. -/
theorem C2_only_labelled_resources_contribute (projectID tagName tagValue : String)
    (s : Service) (hv : tagValue ≠ "") :
    (DescribeInstancesWithTag projectID tagName tagValue s World.init).1.1
      = ((listedInstances projectID s).filter
          fun x => decide (x.2.Labels.lookup tagName = some tagValue)).map (·.2.Name) ∧
    terminateCalls
        (DescribeInstancesWithTag projectID tagName tagValue s World.init).2.stdout
      = ((listedInstances projectID s).filter
          fun x => decide (x.2.Labels.lookup tagName = some tagValue)).map
            (fun x => ⟨projectID, x.1, x.2.Name⟩) ∧
    (DescribeAvailableVolumes projectID tagName tagValue s World.init).1.1
      = ((listedDisks projectID s).filter
          fun x => decide (x.2.Labels.lookup tagName = some tagValue)).map (·.2.Name) ∧
    deleteVolumeCalls
        (DescribeAvailableVolumes projectID tagName tagValue s World.init).2.stdout
      = ((listedDisks projectID s).filter
          fun x => decide (x.2.Labels.lookup tagName = some tagValue)).map
            (fun x => ⟨projectID, x.1, x.2.Name⟩) := by
  rw [instances_names_listed, instances_calls, volumes_names_listed, volumes_calls]
  simp [labelMatch_eq_lookup tagName tagValue hv]

/-- C2 amended, on the two-zone scenario: instance `b` and disk `d3`, labelled
name:other, contribute nothing. -/
theorem C2_only_labelled_resources_contribute_witness :
    "cluster1" ≠ "" ∧
    (DescribeInstancesWithTag "p" "name" "cluster1" scenario World.init).1.1 = ["a", "c"] ∧
    terminateCalls
        (DescribeInstancesWithTag "p" "name" "cluster1" scenario World.init).2.stdout
      = [⟨"p", "z1", "a"⟩, ⟨"p", "z2", "c"⟩] ∧
    (DescribeAvailableVolumes "p" "name" "cluster1" scenario World.init).1.1
      = ["d1", "d2"] ∧
    deleteVolumeCalls
        (DescribeAvailableVolumes "p" "name" "cluster1" scenario World.init).2.stdout
      = [⟨"p", "z1", "d1"⟩, ⟨"p", "z1", "d2"⟩] :=
  have h := C2_only_labelled_resources_contribute "p" "name" "cluster1" scenario (by decide)
  ⟨by decide, h.1.trans (by decide), h.2.1.trans (by decide), h.2.2.1.trans (by decide),
    h.2.2.2.trans (by decide)⟩

/-- C3, what the code does: `TerminateInstance` and `DeleteVolume` build the
delete call and print it without executing it, so they send no request, and
a sweep sends no delete request at all, whatever it matched. -/
theorem C3_no_delete_request_is_sent (projectID tagName tagValue : String) (s : Service) :
    deleteRequests
        (DescribeInstancesWithTag projectID tagName tagValue s World.init).2.requests = [] ∧
    deleteRequests
        (DescribeAvailableVolumes projectID tagName tagValue s World.init).2.requests = [] ∧
    (∀ (id zoneName : String) (w : World),
      (TerminateInstance projectID id zoneName s w).2.requests = w.requests ∧
      (DeleteVolume projectID id zoneName s w).2.requests = w.requests) ∧
    (DescribeInstancesWithTag "p" "name" "cluster1" scenario World.init).1.1 = ["a", "c"] ∧
    (DescribeInstancesWithTag "p" "name" "cluster1" scenario World.init).2.requests
      = [Request.zonesList ⟨"p"⟩,
         Request.instancesList ⟨"p", "z1", some "status = RUNNING", none⟩,
         Request.instancesList ⟨"p", "z2", some "status = RUNNING", none⟩] := by
  refine ⟨?_, ?_, fun id zoneName w => ⟨rfl, rfl⟩, by decide, by decide⟩
  · rw [instances_requests]
    simp [deleteRequests, World.init]
  · rw [volumes_requests]
    simp [deleteRequests, World.init]

/-- C4, refuted as stated: when zone enumeration fails, both sweeps return
a nil error, next to an empty result. -/
theorem C4_failed_enumeration_returns_nil_error :
    zonesDown.doZonesList ⟨"p"⟩ = Except.error "unavailable" ∧
    (DescribeInstancesWithTag "p" "name" "cluster1" zonesDown World.init).1 = ([], none) ∧
    (DescribeAvailableVolumes "p" "name" "cluster1" zonesDown World.init).1 = ([], none) :=
  ⟨rfl, by decide, by decide⟩

/-- C4, amended: when zone enumeration fails, both sweeps print the error and
return the empty result with a nil error; only the zone request was sent, no
zone is listed and nothing is handed to `TerminateInstance` or
`DeleteVolume`. -/
theorem C4_failed_enumeration_is_printed (projectID tagName tagValue : String)
    (s : Service) (err : Error) (hz : s.doZonesList ⟨projectID⟩ = Except.error err) :
    DescribeInstancesWithTag projectID tagName tagValue s World.init
      = (([], none), ⟨[Request.zonesList ⟨projectID⟩], [Line.error err]⟩) ∧
    DescribeAvailableVolumes projectID tagName tagValue s World.init
      = (([], none), ⟨[Request.zonesList ⟨projectID⟩], [Line.error err]⟩) := by
  rw [DescribeInstancesWithTag_eq, DescribeAvailableVolumes_eq, hz]
  exact ⟨rfl, rfl⟩

/-- C4 amended, on a provider whose zone enumeration fails. -/
theorem C4_failed_enumeration_is_printed_witness :
    zonesDown.doZonesList ⟨"p"⟩ = Except.error "unavailable" ∧
    DescribeInstancesWithTag "p" "name" "cluster1" zonesDown World.init
      = (([], none), ⟨[Request.zonesList ⟨"p"⟩], [Line.error "unavailable"]⟩) ∧
    DescribeAvailableVolumes "p" "name" "cluster1" zonesDown World.init
      = (([], none), ⟨[Request.zonesList ⟨"p"⟩], [Line.error "unavailable"]⟩) :=
  ⟨rfl, C4_failed_enumeration_is_printed "p" "name" "cluster1" zonesDown "unavailable" rfl⟩

theorem errorLines_append (a b : List Line) :
    errorLines (a ++ b) = errorLines a ++ errorLines b := by
  simp [errorLines, List.filterMap_append]

theorem errorLines_deleteCalls (l : List Instance) (f : Instance → InstancesDeleteCall) :
    errorLines (l.map fun i => Line.instancesDeleteCall (f i)) = [] := by
  induction l with
  | nil => rfl
  | cons i rest ih =>
    simp only [errorLines, List.map_cons, List.filterMap_cons] at ih ⊢
    exact ih

theorem errorLines_zone (projectID tagName tagValue : String) (s : Service)
    (zoneName : String) :
    (errorLines (zoneInstanceLines projectID tagName tagValue s zoneName)).length
      = if instanceListingFails projectID s zoneName then 1 else 0 := by
  unfold zoneInstanceLines instanceListingFails
  cases s.doInstancesList (instancesRequest projectID zoneName) with
  | error err => simp [errorLines]
  | ok l => simp [errorLines_deleteCalls]

theorem errorLines_zones (projectID tagName tagValue : String) (s : Service)
    (zs : List Zone) :
    (errorLines (zs.flatMap
        fun z => zoneInstanceLines projectID tagName tagValue s z.Name)).length
      = zs.countP fun z => instanceListingFails projectID s z.Name := by
  induction zs with
  | nil => rfl
  | cons z rest ih =>
    rw [List.flatMap_cons, errorLines_append, List.length_append, ih, errorLines_zone,
      List.countP_cons]
    omega

/-- C5, refuted as stated: the values returned to the caller are the same
whether one zone was skipped or none, so no skipped-zone count is reported
to the caller. -/
theorem C5_skipped_count_is_not_returned :
    skippedZones "p" oneDown = 1 ∧ skippedZones "p" noneDown = 0 ∧
    (DescribeInstancesWithTag "p" "name" "cluster1" oneDown World.init).1
      = (DescribeInstancesWithTag "p" "name" "cluster1" noneDown World.init).1 ∧
    ¬ ∃ report : List String × Option Error → Nat,
      report (DescribeInstancesWithTag "p" "name" "cluster1" oneDown World.init).1
        = skippedZones "p" oneDown ∧
      report (DescribeInstancesWithTag "p" "name" "cluster1" noneDown World.init).1
        = skippedZones "p" noneDown := by
  have h1 : skippedZones "p" oneDown = 1 := by decide
  have h0 : skippedZones "p" noneDown = 0 := by decide
  have he : (DescribeInstancesWithTag "p" "name" "cluster1" oneDown World.init).1
      = (DescribeInstancesWithTag "p" "name" "cluster1" noneDown World.init).1 := by decide
  refine ⟨h1, h0, he, ?_⟩
  rintro ⟨report, ha, hb⟩
  rw [he, hb, h0, h1] at ha
  exact absurd ha (by decide)

/-- C5, amended: for every zone list and every set of zones whose listing
call fails, `DescribeInstancesWithTag` returns, with a nil error, the
concatenation in zone order of the names that pass the label test in the
zones whose listing succeeded, a failing zone contributing nothing; each
failing zone is printed as one error line, and no count is returned. -/
theorem C5_failing_zones_are_skipped (projectID tagName tagValue : String) (s : Service)
    (zones : List Zone) (tok : String)
    (hz : s.doZonesList ⟨projectID⟩ = Except.ok ⟨zones, tok⟩) :
    (DescribeInstancesWithTag projectID tagName tagValue s World.init).1
      = (zones.flatMap (fun z =>
          match s.doInstancesList ⟨projectID, z.Name, some "status = RUNNING", none⟩ with
          | Except.ok l =>
            (l.Items.filter fun i => decide (mapIndex i.Labels tagName = tagValue)).map
              (·.Name)
          | Except.error _ => []), none) ∧
    (errorLines
      (DescribeInstancesWithTag projectID tagName tagValue s World.init).2.stdout).length
      = skippedZones projectID s := by
  constructor
  · refine Prod.ext ?_ (sweeps_err projectID tagName tagValue s World.init).1
    rw [instances_names]
    simp only [enumeratedZones, hz]
    apply List.flatMap_congr
    intro z _
    simp only [zoneInstances, instancesRequest]
    cases s.doInstancesList ⟨projectID, z.Name, some "status = RUNNING", none⟩ <;> rfl
  · rw [instances_stdout, skippedZones]
    simp only [enumeratedZones, hz, World.init, List.nil_append]
    exact errorLines_zones projectID tagName tagValue s zones

/-- C5 amended, with one zone of three failing: the result is the matches of
the two other zones. -/
theorem C5_failing_zones_are_skipped_witness :
    oneDown.doZonesList ⟨"p"⟩ = Except.ok ⟨[⟨"z1"⟩, ⟨"z2"⟩, ⟨"z3"⟩], ""⟩ ∧
    (DescribeInstancesWithTag "p" "name" "cluster1" oneDown World.init).1
      = (["a", "c"], none) ∧
    (errorLines
      (DescribeInstancesWithTag "p" "name" "cluster1" oneDown World.init).2.stdout).length
      = 1 :=
  have h := C5_failing_zones_are_skipped "p" "name" "cluster1" oneDown
    [⟨"z1"⟩, ⟨"z2"⟩, ⟨"z3"⟩] "" rfl
  ⟨rfl, h.1.trans (by decide), h.2.trans (by decide)⟩

/-- C6, what the code does: every disk listing of `DescribeAvailableVolumes`
is requested with the join of `filters`, "status = RUNNING", which is not
the join of `availableFilters`, "available = TRUE". -/
theorem C6_disk_listing_uses_instance_filter (projectID tagName tagValue : String)
    (s : Service) :
    (DescribeAvailableVolumes projectID tagName tagValue s World.init).2.requests
      = Request.zonesList ⟨projectID⟩ :: (enumeratedZones projectID s).map
          (fun z => Request.disksList
            ⟨projectID, z.Name, some (stringsJoin filters " "), none⟩) ∧
    stringsJoin filters " " = "status = RUNNING" ∧
    stringsJoin availableFilters " " = "available = TRUE" ∧
    stringsJoin filters " " ≠ stringsJoin availableFilters " " := by
  refine ⟨?_, by decide, by decide, by decide⟩
  rw [volumes_requests]
  have h : stringsJoin filters " " = "status = RUNNING" := by decide
  simp [World.init, disksRequest, h]

theorem string_append_cancel (a b c : String) (h : a ++ b = a ++ c) : b = c := by
  have h2 := congrArg String.data h
  simp only [String.data_append] at h2
  exact String.ext (List.append_cancel_left h2)

/-- A provider built from an inventory honours the status filter. -/
theorem inventoryProvider_honours (zones : List Zone) (instances : String → List Instance)
    (disks : String → List Disk) :
    honoursStatusFilter (inventoryProvider zones instances disks) := by
  intro c l h st hf d hd
  simp only [inventoryProvider, Except.ok.injEq] at h
  subst h
  simp only [List.mem_filter, hf, statusAccepts, decide_eq_true_eq] at hd
  exact (string_append_cancel _ _ _ hd.2).symm

/-- With a provider that honours the status filter, every listed disk is of
status "RUNNING". -/
theorem listedDisks_running (projectID : String) (s : Service)
    (hh : honoursStatusFilter s) :
    ∀ x ∈ listedDisks projectID s, x.2.Status = "RUNNING" := by
  intro x hx
  simp only [listedDisks, List.mem_flatMap, List.mem_map] at hx
  obtain ⟨z, _, d, hd, rfl⟩ := hx
  unfold zoneDisks at hd
  cases h : s.doDisksList (disksRequest projectID z.Name) with
  | error err => simp [h] at hd
  | ok l =>
    simp only [h] at hd
    have hs : "status = " ++ "RUNNING" = "status = RUNNING" := by decide
    have hf : (disksRequest projectID z.Name).filter = some ("status = " ++ "RUNNING") := by
      rw [hs]
      rfl
    exact hh (disksRequest projectID z.Name) l h "RUNNING" hf d hd

/-- C7, refuted as stated: on a provider that honours the status filter and
with the empty `tagValue`, the disk `v`, whose labels do not contain `name`,
is returned and handed to `DeleteVolume`: not only disks with a matching
label are. -/
theorem C7_unlabelled_disk_is_returned :
    bareDisks.doDisksList ⟨"p", "z1", some "status = RUNNING", none⟩
      = Except.ok ⟨[⟨"v", [], "RUNNING"⟩, ⟨"w", [("name", "")], "RUNNING"⟩], ""⟩ ∧
    ([] : Labels).lookup "name" = none ∧
    (DescribeAvailableVolumes "p" "name" "" bareDisks World.init).1.1 = ["v", "w"] ∧
    deleteVolumeCalls (DescribeAvailableVolumes "p" "name" "" bareDisks World.init).2.stdout
      = [⟨"p", "z1", "v"⟩, ⟨"p", "z1", "w"⟩] :=
  ⟨congrArg Except.ok (by decide), by decide, by decide, by decide⟩

/-- C7, amended: with a provider that honours the status filter of the
listing request, every disk a zone's listing returns is of status "RUNNING",
so a disk with status "in-use" is not listed; the result and the
`DeleteVolume` calls are those of the listed disks that pass the label
test, hence none is for a disk with status "in-use", even when its labels
map `tagName` to `tagValue`; and for a non-empty `tagValue` they are exactly
those of the listed disks whose labels contain `tagName` with the value
`tagValue`. -/
theorem C7_in_use_disks_are_excluded (projectID tagName tagValue : String) (s : Service)
    (hh : honoursStatusFilter s) :
    (∀ x ∈ listedDisks projectID s, x.2.Status = "RUNNING" ∧ x.2.Status ≠ "in-use") ∧
    (DescribeAvailableVolumes projectID tagName tagValue s World.init).1.1
      = ((listedDisks projectID s).filter
          fun x => decide (mapIndex x.2.Labels tagName = tagValue)).map (·.2.Name) ∧
    deleteVolumeCalls
        (DescribeAvailableVolumes projectID tagName tagValue s World.init).2.stdout
      = ((listedDisks projectID s).filter
          fun x => decide (mapIndex x.2.Labels tagName = tagValue)).map
            (fun x => ⟨projectID, x.1, x.2.Name⟩) ∧
    (tagValue ≠ "" →
      (DescribeAvailableVolumes projectID tagName tagValue s World.init).1.1
        = ((listedDisks projectID s).filter
            fun x => decide (x.2.Labels.lookup tagName = some tagValue)).map (·.2.Name) ∧
      deleteVolumeCalls
          (DescribeAvailableVolumes projectID tagName tagValue s World.init).2.stdout
        = ((listedDisks projectID s).filter
            fun x => decide (x.2.Labels.lookup tagName = some tagValue)).map
              (fun x => ⟨projectID, x.1, x.2.Name⟩)) := by
  rw [volumes_names_listed, volumes_calls]
  refine ⟨?_, rfl, rfl, ?_⟩
  · intro x hx
    have h := listedDisks_running projectID s hh x hx
    exact ⟨h, by rw [h]; decide⟩
  · intro hv
    simp [labelMatch_eq_lookup tagName tagValue hv]

/-- C7 amended, on a filter-honouring provider whose inventory holds `d2`, in
use and labelled name:cluster1: only `d1` is listed with a matching label,
returned and handed to `DeleteVolume`. -/
theorem C7_in_use_disks_are_excluded_witness :
    honoursStatusFilter attached ∧
    (⟨"d2", [("name", "cluster1")], "in-use"⟩ : Disk) ∈ attachedDisks "z1" ∧
    listedDisks "p" attached
      = [("z1", ⟨"d1", [("name", "cluster1")], "RUNNING"⟩),
         ("z1", ⟨"d3", [("name", "other")], "RUNNING"⟩)] ∧
    (DescribeAvailableVolumes "p" "name" "cluster1" attached World.init).1.1 = ["d1"] ∧
    deleteVolumeCalls
        (DescribeAvailableVolumes "p" "name" "cluster1" attached World.init).2.stdout
      = [⟨"p", "z1", "d1"⟩] :=
  have h := C7_in_use_disks_are_excluded "p" "name" "cluster1" attached
    (inventoryProvider_honours _ _ _)
  ⟨inventoryProvider_honours _ _ _, by decide, by decide, h.2.1.trans (by decide),
    h.2.2.1.trans (by decide)⟩

/-- C8: for every resource id, zone and provider snapshot, `TerminateInstance`
and `DeleteVolume` return a nil error, and they change nothing at the
provider: no request is sent. -/
theorem C8_delete_reports_success (projectID id zoneName : String) (s : Service)
    (w : World) :
    (TerminateInstance projectID id zoneName s w).1 = none ∧
    (DeleteVolume projectID id zoneName s w).1 = none ∧
    (TerminateInstance projectID id zoneName s w).2.requests = w.requests ∧
    (DeleteVolume projectID id zoneName s w).2.requests = w.requests :=
  ⟨rfl, rfl, rfl, rfl⟩

/-- Names taken zone by zone are duplicate-free when the zone names are
distinct, each zone's names are duplicate-free and the names of different
zones are disjoint. -/
theorem nodup_matches {α : Type} (zs : List Zone) (f : String → List α) (nm : α → String)
    (q : α → Bool) (hz : (zs.map (·.Name)).Nodup)
    (hl : ∀ z ∈ zs, ((f z.Name).map nm).Nodup)
    (hd : ∀ z1 ∈ zs, ∀ z2 ∈ zs, z1.Name ≠ z2.Name →
      ∀ n ∈ (f z1.Name).map nm, n ∉ (f z2.Name).map nm) :
    (zs.flatMap fun z => ((f z.Name).filter q).map nm).Nodup := by
  rw [List.nodup_flatMap]
  constructor
  · intro z hzm
    exact (hl z hzm).sublist ((List.filter_sublist _).map nm)
  · have hp : zs.Pairwise (fun a b => a.Name ≠ b.Name) := List.pairwise_map.1 hz
    refine hp.imp_of_mem ?_
    intro a b ha hb hne n hna hnb
    have sa : ((f a.Name).filter q).map nm ⊆ (f a.Name).map nm :=
      ((List.filter_sublist _).map nm).subset
    have sb : ((f b.Name).filter q).map nm ⊆ (f b.Name).map nm :=
      ((List.filter_sublist _).map nm).subset
    exact hd a ha b hb hne n (sa hna) (sb hnb)

/-- C9: when the enumerated zones have pairwise distinct names and the
per-zone listings are duplicate-free and pairwise disjoint in resource
name, the result of `DescribeInstancesWithTag` (of
`DescribeAvailableVolumes`) holds no name twice, and its length is the
number of listed resources that pass the label test. -/
theorem C9_result_without_duplicates (projectID tagName tagValue : String) (s : Service)
    (hz : ((enumeratedZones projectID s).map (·.Name)).Nodup)
    (hi : ∀ z ∈ enumeratedZones projectID s,
      ((zoneInstances projectID s z.Name).map (·.Name)).Nodup)
    (hij : ∀ z1 ∈ enumeratedZones projectID s, ∀ z2 ∈ enumeratedZones projectID s,
      z1.Name ≠ z2.Name → ∀ n ∈ (zoneInstances projectID s z1.Name).map (·.Name),
        n ∉ (zoneInstances projectID s z2.Name).map (·.Name))
    (hd : ∀ z ∈ enumeratedZones projectID s,
      ((zoneDisks projectID s z.Name).map (·.Name)).Nodup)
    (hdj : ∀ z1 ∈ enumeratedZones projectID s, ∀ z2 ∈ enumeratedZones projectID s,
      z1.Name ≠ z2.Name → ∀ n ∈ (zoneDisks projectID s z1.Name).map (·.Name),
        n ∉ (zoneDisks projectID s z2.Name).map (·.Name)) :
    (DescribeInstancesWithTag projectID tagName tagValue s World.init).1.1.Nodup ∧
    (DescribeInstancesWithTag projectID tagName tagValue s World.init).1.1.length
      = (listedInstances projectID s).countP
          (fun x => decide (mapIndex x.2.Labels tagName = tagValue)) ∧
    (DescribeAvailableVolumes projectID tagName tagValue s World.init).1.1.Nodup ∧
    (DescribeAvailableVolumes projectID tagName tagValue s World.init).1.1.length
      = (listedDisks projectID s).countP
          (fun x => decide (mapIndex x.2.Labels tagName = tagValue)) := by
  refine ⟨?_, ?_, ?_, ?_⟩
  · rw [instances_names]
    exact nodup_matches _ (zoneInstances projectID s) (·.Name) _ hz hi hij
  · rw [instances_names_listed, List.length_map, List.countP_eq_length_filter]
    rfl
  · rw [volumes_names]
    exact nodup_matches _ (zoneDisks projectID s) (·.Name) _ hz hd hdj
  · rw [volumes_names_listed, List.length_map, List.countP_eq_length_filter]
    rfl

/-- C9 on the two-zone scenario: two matching instances, two matching disks. -/
theorem C9_result_without_duplicates_witness :
    ((enumeratedZones "p" scenario).map (·.Name)).Nodup ∧
    (DescribeInstancesWithTag "p" "name" "cluster1" scenario World.init).1.1.Nodup ∧
    (DescribeInstancesWithTag "p" "name" "cluster1" scenario World.init).1.1.length = 2 ∧
    (DescribeAvailableVolumes "p" "name" "cluster1" scenario World.init).1.1.Nodup ∧
    (DescribeAvailableVolumes "p" "name" "cluster1" scenario World.init).1.1.length = 2 :=
  have h := C9_result_without_duplicates "p" "name" "cluster1" scenario (by decide)
    (by decide) (by decide) (by decide) (by decide)
  ⟨by decide, h.1, h.2.1.trans (by decide), h.2.2.1, h.2.2.2.trans (by decide)⟩

/-- C10, refuted as stated: the inventory of `z1` comes in two pages; the
instance `c` and the disk `d3` of the second page pass the label test and
are neither returned nor handed to `TerminateInstance` or `DeleteVolume`. -/
theorem C10_second_page_is_missed :
    paged.doInstancesList ⟨"p", "z1", some "status = RUNNING", none⟩
      = Except.ok ⟨[⟨"a", [("name", "cluster1")], "RUNNING"⟩], "t2"⟩ ∧
    paged.doInstancesList ⟨"p", "z1", some "status = RUNNING", some "t2"⟩
      = Except.ok ⟨[⟨"c", [("name", "cluster1")], "RUNNING"⟩], ""⟩ ∧
    mapIndex [("name", "cluster1")] "name" = "cluster1" ∧
    (DescribeInstancesWithTag "p" "name" "cluster1" paged World.init).1.1 = ["a"] ∧
    terminateCalls
        (DescribeInstancesWithTag "p" "name" "cluster1" paged World.init).2.stdout
      = [⟨"p", "z1", "a"⟩] ∧
    paged.doDisksList ⟨"p", "z1", some "status = RUNNING", none⟩
      = Except.ok ⟨[⟨"d1", [("name", "cluster1")], "RUNNING"⟩], "t2"⟩ ∧
    paged.doDisksList ⟨"p", "z1", some "status = RUNNING", some "t2"⟩
      = Except.ok ⟨[⟨"d3", [("name", "cluster1")], "RUNNING"⟩], ""⟩ ∧
    (DescribeAvailableVolumes "p" "name" "cluster1" paged World.init).1.1 = ["d1"] ∧
    deleteVolumeCalls
        (DescribeAvailableVolumes "p" "name" "cluster1" paged World.init).2.stdout
      = [⟨"p", "z1", "d1"⟩] :=
  ⟨rfl, rfl, by decide, by decide, by decide, rfl, rfl, by decide, by decide⟩

/-- C10, amended: for every zone, `DescribeInstancesWithTag` and
`DescribeAvailableVolumes` send one list request, without a page token, and
examine the resources of that first page only: two providers that agree on
the zones and on the answers to requests without a page token give the same
result, the same requests and the same output. -/
theorem C10_only_first_pages_are_examined (projectID tagName tagValue : String)
    (s t : Service)
    (hz : s.doZonesList ⟨projectID⟩ = t.doZonesList ⟨projectID⟩)
    (hi : ∀ c : InstancesListCall, c.pageToken = none →
      s.doInstancesList c = t.doInstancesList c)
    (hd : ∀ c : DisksListCall, c.pageToken = none → s.doDisksList c = t.doDisksList c) :
    DescribeInstancesWithTag projectID tagName tagValue s World.init
      = DescribeInstancesWithTag projectID tagName tagValue t World.init ∧
    DescribeAvailableVolumes projectID tagName tagValue s World.init
      = DescribeAvailableVolumes projectID tagName tagValue t World.init ∧
    (DescribeInstancesWithTag projectID tagName tagValue s World.init).2.requests
      = Request.zonesList ⟨projectID⟩ :: (enumeratedZones projectID s).map
          (fun z => Request.instancesList
            ⟨projectID, z.Name, some "status = RUNNING", none⟩) ∧
    (DescribeAvailableVolumes projectID tagName tagValue s World.init).2.requests
      = Request.zonesList ⟨projectID⟩ :: (enumeratedZones projectID s).map
          (fun z => Request.disksList
            ⟨projectID, z.Name, some "status = RUNNING", none⟩) := by
  have h1 : zoneInstances projectID s = zoneInstances projectID t := by
    funext z
    simp only [zoneInstances, hi (instancesRequest projectID z) rfl]
  have h2 : zoneInstanceLines projectID tagName tagValue s
      = zoneInstanceLines projectID tagName tagValue t := by
    funext z
    simp only [zoneInstanceLines, hi (instancesRequest projectID z) rfl]
  have h3 : zoneDisks projectID s = zoneDisks projectID t := by
    funext z
    simp only [zoneDisks, hd (disksRequest projectID z) rfl]
  have h4 : zoneDiskLines projectID tagName tagValue s
      = zoneDiskLines projectID tagName tagValue t := by
    funext z
    simp only [zoneDiskLines, hd (disksRequest projectID z) rfl]
  refine ⟨?_, ?_, ?_, ?_⟩
  · rw [DescribeInstancesWithTag_eq, DescribeInstancesWithTag_eq, hz, h1, h2]
  · rw [DescribeAvailableVolumes_eq, DescribeAvailableVolumes_eq, hz, h3, h4]
  · rw [instances_requests]
    simp [World.init, instancesRequest]
  · rw [volumes_requests]
    simp [World.init, disksRequest]

/-- C10 amended, on the paged provider and the same provider without its
second pages: both sweeps give the first page's matches. -/
theorem C10_only_first_pages_are_examined_witness :
    paged.doZonesList ⟨"p"⟩ = firstPageOnly.doZonesList ⟨"p"⟩ ∧
    DescribeInstancesWithTag "p" "name" "cluster1" paged World.init
      = DescribeInstancesWithTag "p" "name" "cluster1" firstPageOnly World.init ∧
    DescribeAvailableVolumes "p" "name" "cluster1" paged World.init
      = DescribeAvailableVolumes "p" "name" "cluster1" firstPageOnly World.init ∧
    (DescribeInstancesWithTag "p" "name" "cluster1" paged World.init).2.requests
      = [Request.zonesList ⟨"p"⟩,
         Request.instancesList ⟨"p", "z1", some "status = RUNNING", none⟩] :=
  have h := C10_only_first_pages_are_examined "p" "name" "cluster1" paged firstPageOnly rfl
    (by intro c hc; simp [paged, firstPageOnly, hc])
    (by intro c hc; simp [paged, firstPageOnly, hc])
  ⟨rfl, h.1, h.2.1, h.2.2.1.trans (by decide)⟩

end provider
